import Mathlib

/-!
Verification of the TIP5 jet layer of nockchain
(`crates/zkvm-jetpack/src/jets/tip5_jets.rs`).

The Rust module marshals Hoon noun trees to fixed-size `u64` arrays, runs
the TIP5 permutation (`permute`, from `crate::form::math::tip5`, outside
this module) and marshals the result back.  We embed the noun data model,
the decoders `hoon_list_to_sponge` and `hoon_list_to_hash10_input`, the
encoder `vec_to_hoon_list`, and the entry points `permutation_jet` and
`hash_10_jet`.  The permutation itself is a parameter of the embedded entry
points: every theorem below holds for an arbitrary permutation of the right
type, which is exactly the parity/independence content of the claims.

Machine integers are modelled as `Nat` with explicit bounds: a Rust `u64`
value is a `Nat` known to be `< 2^64`, and `as_u64` on an atom fails when
the atom does not fit.  Array writes carry their bounds check, so a Rust
index-out-of-bounds panic is a distinguished outcome (`RustResult.panicked`)
separate from a returned error.
-/

namespace Tip5

/-- A Hoon noun: an atom (arbitrary-precision natural) or a cell (ordered
pair of nouns).  From `nockvm::noun::Noun` as used by the jet module. -/
inductive Noun where
  | atom : Nat → Noun
  | cell : Noun → Noun → Noun
deriving DecidableEq, Repr

/-- Modelled from the spec: the jet error type.  The jet module signals
failure through `jet_err()` (a nullary call, hence one fixed value,
constructor `fail`) and through the `?` conversions of the noun accessors
(`as_cell` on an atom, `as_atom` on a cell, `as_u64` on an oversized atom).
The accessor errors are given distinct constructors, the most charitable
reading of the spec's typed-failure taxonomy. -/
inductive JetErr where
  | fail : JetErr
  | notCell : JetErr
  | notAtom : JetErr
  | notRepresentable : JetErr
deriving DecidableEq, Repr

/-- Outcome of running a piece of the Rust code: a value, a returned typed
error, or a process abort (Rust panic, e.g. a slice index out of bounds). -/
inductive RustResult (α : Type) where
  | ok : α → RustResult α
  | err : JetErr → RustResult α
  | panicked : RustResult α
deriving DecidableEq, Repr

/-- `Noun::is_atom`. -/
def Noun.is_atom : Noun → Bool
  | .atom _ => true
  | .cell _ _ => false

/-- `Noun::is_cell`. -/
def Noun.is_cell : Noun → Bool
  | .atom _ => false
  | .cell _ _ => true

/-- `Noun::as_cell`: the head/tail pair, or an error on an atom. -/
def Noun.as_cell : Noun → Except JetErr (Noun × Noun)
  | .atom _ => .error .notCell
  | .cell h t => .ok (h, t)

/-- `Noun::as_atom`: the atom value, or an error on a cell. -/
def Noun.as_atom : Noun → Except JetErr Nat
  | .atom a => .ok a
  | .cell _ _ => .error .notAtom

/-- `Atom::as_u64`: the value if it fits in 64 bits, else an error. -/
def as_u64 (a : Nat) : Except JetErr Nat :=
  if a < 2 ^ 64 then .ok a else .error .notRepresentable

/-- TIP5 specific prime `2^32 - 5` (`TIP5_PRIME` in the Rust source). -/
def TIP5_PRIME : Nat := 4294967291

/-- Modelled from the spec: `STATE_SIZE` (16), imported by the jet module
from `crate::form::math::tip5`, which is not among the reviewed sources. -/
def STATE_SIZE : Nat := 16

/-- Modelled from the spec: `RATE` (10), imported by the jet module from
`crate::form::math::tip5`. -/
def RATE : Nat := 10

/-- Modelled from the spec: `DIGEST_LENGTH` (5), imported by the jet module
from `crate::form::math::tip5`. -/
def DIGEST_LENGTH : Nat := 5

/-- `montify`: conversion into Montgomery space as the source implements it
(a plain reduction modulo `TIP5_PRIME`; the source comments call this a
simplified placeholder). -/
def montify (x : Nat) : Nat := x % TIP5_PRIME

/-- `mont_reduction`: conversion out of Montgomery space as the source
implements it (a plain reduction modulo `TIP5_PRIME`). -/
def mont_reduction (x : Nat) : Nat := x % TIP5_PRIME

/-- The loop of `hoon_list_to_sponge`: while the current noun is a cell,
read the head as a `u64` and store it at index `i` of the sponge array.
The Rust assignment evaluates the right-hand side first (so accessor errors
fire before the index is used) and then writes `sponge[i]`, which panics
when `i` is out of bounds; the loop has no bound on `i`. -/
def spongeLoop : Noun → List Nat → Nat → RustResult (List Nat × Nat)
  | .atom _, sponge, i => .ok (sponge, i)
  | .cell h t, sponge, i =>
    match h.as_atom with
    | .error e => .err e
    | .ok a =>
      match as_u64 a with
      | .error e => .err e
      | .ok v =>
        if i < sponge.length then spongeLoop t (sponge.set i v) (i + 1)
        else .panicked

/-- `hoon_list_to_sponge`: decode a noun expected to be a right-nested
chain of 16 atoms into a 16-element array. -/
def hoon_list_to_sponge (list : Noun) : RustResult (List Nat) :=
  if list.is_atom then .err .fail
  else
    match spongeLoop list (List.replicate STATE_SIZE 0) 0 with
    | .panicked => .panicked
    | .err e => .err e
    | .ok (sponge, i) => if i ≠ STATE_SIZE then .err .fail else .ok sponge

/-- `vec_to_hoon_list`: encode an array as a right-nested chain of cells
terminated by atom `0` (the Rust builds it from the last element inward;
the result is the same right fold). -/
def vec_to_hoon_list : List Nat → Noun
  | [] => .atom 0
  | v :: rest => .cell (.atom v) (vec_to_hoon_list rest)

/-- The loop of `hoon_list_to_hash10_input`: while the current noun is a
cell and fewer than `RATE` elements have been read, read the head as a
`u64` into index `i`.  Returns the noun the loop stopped at together with
the filled array and the count. -/
def hash10Loop : Noun → List Nat → Nat → RustResult (Noun × List Nat × Nat)
  | .atom a, input, i => .ok (.atom a, input, i)
  | .cell h t, input, i =>
    if i < RATE then
      match h.as_atom with
      | .error e => .err e
      | .ok a =>
        match as_u64 a with
        | .error e => .err e
        | .ok v =>
          if i < input.length then hash10Loop t (input.set i v) (i + 1)
          else .panicked
    else .ok (.cell h t, input, i)

/-- `hoon_list_to_hash10_input`: decode a noun expected to be a right-nested
chain of exactly 10 atoms terminated by atom `0`.  After the loop the Rust
checks, with short-circuit evaluation, `i != RATE`, then that the rest is an
atom, then that this terminating atom (read as `u64`, which can itself fail)
is zero. -/
def hoon_list_to_hash10_input (list : Noun) : RustResult (List Nat) :=
  if list.is_atom then .err .fail
  else
    match hash10Loop list (List.replicate RATE 0) 0 with
    | .panicked => .panicked
    | .err e => .err e
    | .ok (current, input, i) =>
      if i ≠ RATE then .err .fail
      else if !current.is_atom then .err .fail
      else
        match current.as_atom with
        | .error e => .err e
        | .ok a =>
          match as_u64 a with
          | .error e => .err e
          | .ok v => if v ≠ 0 then .err .fail else .ok input

/-- `slot(subject, 6)` from `nockvm::jets::util::slot`: standard Nock tree
addressing, axis 6 is the head of the tail (the sample position of a gate).
Both entry points use `slot` only at axis 6, so the embedding fixes the
axis; on a subject whose root or tail is an atom the walk hits an atom and
fails. -/
def slot6 : Noun → Except JetErr Noun
  | .cell _ (.cell h _) => .ok h
  | _ => .error .notCell

/-- `permutation_jet`: fetch the sample at axis 6, decode it as a 16-word
sponge, apply the permutation, and encode the result.  The permutation
`permute` (from `crate::form::math::tip5`) is a parameter of the
embedding. -/
def permutation_jet (permute : List Nat → List Nat) (subject : Noun) :
    RustResult Noun :=
  match slot6 subject with
  | .error e => .err e
  | .ok sample =>
    match hoon_list_to_sponge sample with
    | .panicked => .panicked
    | .err e => .err e
    | .ok sponge => .ok (vec_to_hoon_list (permute sponge))

/-- `init_tip5_state_fixed`: a 16-word state whose first `RATE` words are 0
and whose last `STATE_SIZE - RATE` (capacity) words are `montify 1`. -/
def init_tip5_state_fixed : List Nat :=
  List.replicate RATE 0 ++ List.replicate (STATE_SIZE - RATE) (montify 1)

/-- The sponge-update step of `hash_10_jet`: overwrite the first `RATE`
words of the state with the given words, leaving the capacity words
unchanged. -/
def updateRate (input sponge : List Nat) : List Nat :=
  input ++ sponge.drop RATE

/-- `hash_10_jet`: fetch the sample at axis 6, decode it as a 10-word
input, reject any word `≥ TIP5_PRIME`, convert the words to Montgomery
space, write them over the rate part of the fixed initial state, permute
once, convert the first `DIGEST_LENGTH` words back and encode them.  The
permutation is a parameter of the embedding. -/
def hash_10_jet (permute : List Nat → List Nat) (subject : Noun) :
    RustResult Noun :=
  match slot6 subject with
  | .error e => .err e
  | .ok sample =>
    match hoon_list_to_hash10_input sample with
    | .panicked => .panicked
    | .err e => .err e
    | .ok input =>
      if input.any (fun v => TIP5_PRIME ≤ v) then .err .fail
      else
        let montified := input.map montify
        let sponge := permute (updateRate montified init_tip5_state_fixed)
        let output := (sponge.take DIGEST_LENGTH).map mont_reduction
        .ok (vec_to_hoon_list output)

/-- Generic list decode, as the consistency test reads jet results back:
walk the chain, taking each head as a `u64`; `none` on a malformed chain. -/
def hoon_list_to_vec : Noun → Option (List Nat)
  | .atom _ => some []
  | .cell (.atom a) t =>
    if a < 2 ^ 64 then (hoon_list_to_vec t).map (a :: ·) else none
  | .cell (.cell _ _) _ => none

/-- A right-nested chain of atom leaves over an arbitrary trailing noun.
`vec_to_hoon_list xs` is `chain xs (.atom 0)`; the general form lets us
speak about non-zero terminators. -/
def chain : List Nat → Noun → Noun
  | [], t => t
  | v :: rest, t => .cell (.atom v) (chain rest t)

/-- The reference hash-10 pipeline shared by the slow path and the jet:
montify the input words, write them over the rate part of the fixed
initial state, permute once, convert the first `DIGEST_LENGTH` words
back. -/
def hash10_ref (permute : List Nat → List Nat) (input : List Nat) :
    List Nat :=
  ((permute (updateRate (input.map montify) init_tip5_state_fixed)).take
    DIGEST_LENGTH).map mont_reduction

/-! Helper lemmas. -/

theorem vec_to_hoon_list_eq_chain (xs : List Nat) :
    vec_to_hoon_list xs = chain xs (.atom 0) := by
  induction xs with
  | nil => rfl
  | cons v rest ih => simp [vec_to_hoon_list, chain, ih]

theorem set_append_cons (done rest : List Nat) (r0 v : Nat) :
    (done ++ r0 :: rest).set done.length v = done ++ v :: rest := by
  induction done with
  | nil => rfl
  | cons d ds ih => simp [List.set, ih]

theorem spongeLoop_chain (xs : List Nat) (a : Nat) :
    ∀ (done rest : List Nat), xs.length ≤ rest.length →
    (∀ v ∈ xs, v < 2 ^ 64) →
    spongeLoop (chain xs (.atom a)) (done ++ rest) done.length
      = .ok (done ++ xs ++ rest.drop xs.length, done.length + xs.length) := by
  induction xs with
  | nil => intro done rest _ _; simp [chain, spongeLoop]
  | cons v vs ih =>
    intro done rest hlen hv
    cases rest with
    | nil => simp at hlen
    | cons r0 rest' =>
      have hv0 : v < 2 ^ 64 := hv v (by simp)
      have hlt : done.length < (done ++ r0 :: rest').length := by
        simp only [List.length_append, List.length_cons]; omega
      have hlen' : vs.length ≤ rest'.length := by
        simpa using hlen
      have hvs : ∀ w ∈ vs, w < 2 ^ 64 := fun w hw => hv w (by simp [hw])
      have hrec := ih (done ++ [v]) rest' hlen' hvs
      simp only [List.append_assoc, List.singleton_append,
        List.length_append, List.length_cons, List.length_nil] at hrec
      simp only [chain, spongeLoop, Noun.as_atom, as_u64, if_pos hv0,
        if_pos hlt]
      rw [set_append_cons, hrec]
      simp only [RustResult.ok.injEq, Prod.mk.injEq, List.cons_append,
        List.length_cons, List.drop_succ_cons, List.append_assoc]
      exact ⟨by simp, by omega⟩

theorem hash10Loop_chain (xs : List Nat) (a : Nat) :
    ∀ (done rest : List Nat), xs.length ≤ rest.length →
    done.length + xs.length ≤ RATE →
    (∀ v ∈ xs, v < 2 ^ 64) →
    hash10Loop (chain xs (.atom a)) (done ++ rest) done.length
      = .ok (.atom a, done ++ xs ++ rest.drop xs.length,
          done.length + xs.length) := by
  induction xs with
  | nil => intro done rest _ _ _; simp [chain, hash10Loop]
  | cons v vs ih =>
    intro done rest hlen hrate hv
    cases rest with
    | nil => simp at hlen
    | cons r0 rest' =>
      have hv0 : v < 2 ^ 64 := hv v (by simp)
      have hlt : done.length < (done ++ r0 :: rest').length := by
        simp only [List.length_append, List.length_cons]; omega
      have hrt : done.length < RATE := by
        simp only [List.length_cons] at hrate; omega
      have hlen' : vs.length ≤ rest'.length := by
        simpa using hlen
      have hvs : ∀ w ∈ vs, w < 2 ^ 64 := fun w hw => hv w (by simp [hw])
      have hrec := ih (done ++ [v]) rest' hlen'
        (by simp only [List.length_append, List.length_cons,
          List.length_nil, List.length_cons] at hrate ⊢; omega) hvs
      simp only [List.append_assoc, List.singleton_append,
        List.length_append, List.length_cons, List.length_nil] at hrec
      simp only [chain, hash10Loop, Noun.as_atom, as_u64, if_pos hv0,
        if_pos hlt, if_pos hrt]
      rw [set_append_cons, hrec]
      simp only [RustResult.ok.injEq, Prod.mk.injEq, List.cons_append,
        List.length_cons, List.drop_succ_cons, List.append_assoc]
      exact ⟨by simp, by simp, by omega⟩

theorem hoon_list_to_sponge_chain (xs : List Nat) (a : Nat)
    (h16 : xs.length = 16) (hv : ∀ v ∈ xs, v < 2 ^ 64) :
    hoon_list_to_sponge (chain xs (.atom a)) = .ok xs := by
  cases xs with
  | nil => simp at h16
  | cons v vs =>
    have hloop := spongeLoop_chain (v :: vs) a [] (List.replicate STATE_SIZE 0)
      (by simp [h16, STATE_SIZE]) hv
    simp only [List.nil_append, List.length_nil, Nat.zero_add] at hloop
    have hdrop : (List.replicate STATE_SIZE 0).drop (v :: vs).length = [] := by
      rw [h16]; rfl
    rw [hdrop, List.append_nil] at hloop
    unfold hoon_list_to_sponge
    rw [hloop]
    simp [chain, Noun.is_atom, h16, STATE_SIZE]

theorem hoon_list_to_sponge_encode (xs : List Nat)
    (h16 : xs.length = 16) (hv : ∀ v ∈ xs, v < 2 ^ 64) :
    hoon_list_to_sponge (vec_to_hoon_list xs) = .ok xs := by
  rw [vec_to_hoon_list_eq_chain]
  exact hoon_list_to_sponge_chain xs 0 h16 hv

theorem hoon_list_to_hash10_chain (xs : List Nat) (a : Nat)
    (h10 : xs.length = 10) (hv : ∀ v ∈ xs, v < 2 ^ 64) :
    hoon_list_to_hash10_input (chain xs (.atom a)) =
      if a < 2 ^ 64 then
        (if a ≠ 0 then .err .fail else .ok xs)
      else .err .notRepresentable := by
  cases xs with
  | nil => simp at h10
  | cons v vs =>
    have hloop := hash10Loop_chain (v :: vs) a [] (List.replicate RATE 0)
      (by simp [h10, RATE]) (by simp [h10, RATE]) hv
    simp only [List.nil_append, List.length_nil, Nat.zero_add] at hloop
    have hdrop : (List.replicate RATE 0).drop (v :: vs).length = [] := by
      rw [h10]; rfl
    rw [hdrop, List.append_nil] at hloop
    unfold hoon_list_to_hash10_input
    rw [hloop]
    by_cases ha : a < 2 ^ 64
    · have ha' : a < 18446744073709551616 := by simpa using ha
      by_cases hz : a = 0
      · subst hz
        norm_num [chain, Noun.is_atom, Noun.as_atom, as_u64, h10, RATE]
      · simp [chain, Noun.is_atom, Noun.as_atom, as_u64, h10, RATE, ha', hz]
    · have ha' : ¬ a < 18446744073709551616 := by simpa using ha
      simp [chain, Noun.is_atom, Noun.as_atom, as_u64, h10, RATE, ha']

theorem hoon_list_to_hash10_encode (xs : List Nat)
    (h10 : xs.length = 10) (hv : ∀ v ∈ xs, v < 2 ^ 64) :
    hoon_list_to_hash10_input (vec_to_hoon_list xs) = .ok xs := by
  rw [vec_to_hoon_list_eq_chain, hoon_list_to_hash10_chain xs 0 h10 hv]
  simp

theorem hoon_list_to_hash10_short (ys : List Nat)
    (hlt : ys.length < 10) (hv : ∀ v ∈ ys, v < 2 ^ 64) :
    hoon_list_to_hash10_input (vec_to_hoon_list ys) = .err .fail := by
  cases ys with
  | nil => rfl
  | cons v vs =>
    rw [vec_to_hoon_list_eq_chain]
    have hloop := hash10Loop_chain (v :: vs) 0 [] (List.replicate RATE 0)
      (by simp only [List.length_replicate, RATE]; omega)
      (by simp only [List.length_nil, List.length_replicate, RATE]; omega) hv
    simp only [List.nil_append, List.length_nil, Nat.zero_add] at hloop
    unfold hoon_list_to_hash10_input
    rw [hloop]
    simp only [List.length_cons] at hlt
    have hne : vs.length + 1 ≠ RATE := by
      simp only [RATE]; omega
    simp [chain, Noun.is_atom, hne]

theorem hoon_list_to_vec_encode (xs : List Nat)
    (hv : ∀ v ∈ xs, v < 2 ^ 64) :
    hoon_list_to_vec (vec_to_hoon_list xs) = some xs := by
  induction xs with
  | nil => rfl
  | cons v vs ih =>
    have hv0 : v < 2 ^ 64 := hv v (by simp)
    have hvs : ∀ w ∈ vs, w < 2 ^ 64 := fun w hw => hv w (by simp [hw])
    simp only [vec_to_hoon_list, hoon_list_to_vec, ih hvs]
    rw [if_pos hv0]
    rfl

theorem slot6_sample (a t : Noun) (sample : Noun) :
    slot6 (.cell a (.cell sample t)) = .ok sample := rfl

theorem permutation_jet_ok (permute : List Nat → List Nat)
    (xs : List Nat) (a t : Noun) (h16 : xs.length = 16)
    (hv : ∀ v ∈ xs, v < 2 ^ 64) :
    permutation_jet permute (.cell a (.cell (vec_to_hoon_list xs) t))
      = .ok (vec_to_hoon_list (permute xs)) := by
  simp [permutation_jet, slot6_sample, hoon_list_to_sponge_encode xs h16 hv]

theorem hash_10_jet_ok (permute : List Nat → List Nat)
    (xs : List Nat) (a t : Noun) (h10 : xs.length = 10)
    (hv : ∀ v ∈ xs, v < TIP5_PRIME) :
    hash_10_jet permute (.cell a (.cell (vec_to_hoon_list xs) t))
      = .ok (vec_to_hoon_list (hash10_ref permute xs)) := by
  have hv64 : ∀ v ∈ xs, v < 2 ^ 64 := fun v hvx =>
    lt_trans (hv v hvx) (by decide)
  have hany : xs.any (fun v => TIP5_PRIME ≤ v) = false := by
    simp only [List.any_eq_false, decide_eq_true_eq]
    intro v hvx
    exact not_le_of_lt (hv v hvx)
  simp [hash_10_jet, slot6_sample, hoon_list_to_hash10_encode xs h10 hv64,
    hany, hash10_ref]

theorem hash_10_jet_range_err (permute : List Nat → List Nat)
    (xs : List Nat) (a t : Noun) (h10 : xs.length = 10)
    (hv : ∀ v ∈ xs, v < 2 ^ 64) (hx : ∃ v ∈ xs, TIP5_PRIME ≤ v) :
    hash_10_jet permute (.cell a (.cell (vec_to_hoon_list xs) t))
      = .err .fail := by
  have hany : xs.any (fun v => TIP5_PRIME ≤ v) = true := by
    simp only [List.any_eq_true, decide_eq_true_eq]
    exact hx
  simp [hash_10_jet, slot6_sample, hoon_list_to_hash10_encode xs h10 hv, hany]

theorem hash_10_jet_arity_err (permute : List Nat → List Nat)
    (ys : List Nat) (a t : Noun) (hlt : ys.length < 10)
    (hv : ∀ v ∈ ys, v < 2 ^ 64) :
    hash_10_jet permute (.cell a (.cell (vec_to_hoon_list ys) t))
      = .err .fail := by
  simp [hash_10_jet, slot6_sample, hoon_list_to_hash10_short ys hlt hv]

theorem hash10_ref_mem_lt (permute : List Nat → List Nat)
    (input : List Nat) : ∀ v ∈ hash10_ref permute input, v < TIP5_PRIME := by
  intro v hv
  simp only [hash10_ref, List.mem_map] at hv
  obtain ⟨w, _, rfl⟩ := hv
  exact Nat.mod_lt w (by decide)

/-- Modelled from the spec: the hash-10 digest pipeline of spec section 4.3
as the claim states it word for word (the reference implementation in Hoon
is not among the reviewed sources): montify each input word, place the ten
converted words before a capacity of six words all equal to `montify 1`,
permute once, and convert the first five words back with
`mont_reduction`. -/
def hash10_spec_pipeline (permute : List Nat → List Nat)
    (input : List Nat) : List Nat :=
  ((permute (input.map montify ++ List.replicate 6 (montify 1))).take 5).map
    mont_reduction

/-! Claim theorems. -/

/-- C1: parity of the accelerated and reference paths.  For every 16-word
state encoded as a right-nested list and handed to `permutation_jet` (as
the sample of the subject), the jet succeeds and its decoded output is
exactly `permute` of the state; likewise `hash_10_jet` on every valid
10-word input decodes to exactly the reference hash-10 pipeline's output,
word for word, for an arbitrary permutation. -/
theorem parity_accelerated_vs_reference
    (permute : List Nat → List Nat) (s xs : List Nat) (a t a2 t2 : Noun)
    (hs : s.length = 16) (hsv : ∀ v ∈ s, v < 2 ^ 64)
    (hpv : ∀ v ∈ permute s, v < 2 ^ 64)
    (hx : xs.length = 10) (hxv : ∀ v ∈ xs, v < TIP5_PRIME) :
    (∃ r, permutation_jet permute (.cell a (.cell (vec_to_hoon_list s) t))
        = .ok r ∧ hoon_list_to_vec r = some (permute s))
    ∧ (∃ r, hash_10_jet permute (.cell a2 (.cell (vec_to_hoon_list xs) t2))
        = .ok r ∧ hoon_list_to_vec r = some (hash10_ref permute xs)) := by
  refine ⟨⟨vec_to_hoon_list (permute s),
      permutation_jet_ok permute s a t hs hsv,
      hoon_list_to_vec_encode _ hpv⟩,
    ⟨vec_to_hoon_list (hash10_ref permute xs),
      hash_10_jet_ok permute xs a2 t2 hx hxv,
      hoon_list_to_vec_encode _ ?_⟩⟩
  intro v hv
  exact lt_trans (hash10_ref_mem_lt permute xs v hv) (by decide)

theorem parity_accelerated_vs_reference_witness :
    (∃ r, permutation_jet (fun l => l)
        (.cell (.atom 0)
          (.cell (vec_to_hoon_list (List.replicate 16 3)) (.atom 0)))
        = .ok r ∧ hoon_list_to_vec r = some (List.replicate 16 3))
    ∧ (∃ r, hash_10_jet (fun l => l)
        (.cell (.atom 0)
          (.cell (vec_to_hoon_list (List.replicate 10 2)) (.atom 0)))
        = .ok r
        ∧ hoon_list_to_vec r
            = some (hash10_ref (fun l => l) (List.replicate 10 2))) :=
  parity_accelerated_vs_reference (fun l => l) (List.replicate 16 3)
    (List.replicate 10 2) (.atom 0) (.atom 0) (.atom 0) (.atom 0)
    (by decide) (by decide) (by decide) (by decide) (by decide)

/-- C2: the code violates the no-panic claim.  A right-nested chain of 17
leaves handed to `hoon_list_to_sponge` (directly or through
`permutation_jet`) drives the unguarded loop index past the end of the
16-element array: the write `sponge[16]` is an out-of-bounds access, a Rust
panic rather than a returned typed failure. -/
theorem sponge_decoder_17_elements_panics :
    hoon_list_to_sponge (vec_to_hoon_list (List.replicate 17 0))
        = .panicked
    ∧ permutation_jet (fun l => l)
        (.cell (.atom 0)
          (.cell (vec_to_hoon_list (List.replicate 17 0)) (.atom 0)))
        = .panicked := by decide

/-- C3: for every valid 10-word input, `hash_10_jet` computes its digest
exactly by the spec pipeline: montify each word, place the ten converted
words in the first ten positions of a 16-word state whose last six words
all equal `montify 1`, permute once, and return the first five words of
the permuted state converted back with `mont_reduction`, in order. -/
theorem hash10_computes_spec_pipeline
    (permute : List Nat → List Nat) (xs : List Nat) (a t : Noun)
    (h10 : xs.length = 10) (hv : ∀ v ∈ xs, v < TIP5_PRIME) :
    hash_10_jet permute (.cell a (.cell (vec_to_hoon_list xs) t))
      = .ok (vec_to_hoon_list (hash10_spec_pipeline permute xs)) := by
  rw [hash_10_jet_ok permute xs a t h10 hv]
  unfold hash10_ref hash10_spec_pipeline updateRate
  rw [show init_tip5_state_fixed.drop RATE
      = List.replicate 6 (montify 1) from rfl]
  rfl

theorem hash10_computes_spec_pipeline_witness :
    hash_10_jet (fun l => l)
        (.cell (.atom 0)
          (.cell (vec_to_hoon_list (List.replicate 10 2)) (.atom 0)))
      = .ok (vec_to_hoon_list
          (hash10_spec_pipeline (fun l => l) (List.replicate 10 2))) :=
  hash10_computes_spec_pipeline (fun l => l) (List.replicate 10 2)
    (.atom 0) (.atom 0) (by decide) (by decide)

/-- C4: Montgomery round trip as the code implements it: for every
canonical field element `x < TIP5_PRIME`, `mont_reduction (montify x) = x`. -/
theorem mont_roundtrip (x : Nat) (hx : x < TIP5_PRIME) :
    mont_reduction (montify x) = x := by
  unfold montify mont_reduction
  rw [Nat.mod_eq_of_lt (Nat.mod_lt x (by decide)), Nat.mod_eq_of_lt hx]

theorem mont_roundtrip_witness :
    mont_reduction (montify 4294967290) = 4294967290 :=
  mont_roundtrip 4294967290 (by decide)

/-- C5: marshalling round trip: decoding the tree produced by
`vec_to_hoon_list` with the matching decoder returns exactly the original
array, for every 16-element array (sponge decoder) and every 10-element
array (hash-10 decoder) of `u64` values. -/
theorem marshalling_roundtrip (xs ys : List Nat)
    (h16 : xs.length = 16) (hxv : ∀ v ∈ xs, v < 2 ^ 64)
    (h10 : ys.length = 10) (hyv : ∀ v ∈ ys, v < 2 ^ 64) :
    hoon_list_to_sponge (vec_to_hoon_list xs) = .ok xs
    ∧ hoon_list_to_hash10_input (vec_to_hoon_list ys) = .ok ys :=
  ⟨hoon_list_to_sponge_encode xs h16 hxv,
    hoon_list_to_hash10_encode ys h10 hyv⟩

theorem marshalling_roundtrip_witness :
    hoon_list_to_sponge (vec_to_hoon_list (List.replicate 16 9))
        = .ok (List.replicate 16 9)
    ∧ hoon_list_to_hash10_input (vec_to_hoon_list (List.replicate 10 8))
        = .ok (List.replicate 10 8) :=
  marshalling_roundtrip (List.replicate 16 9) (List.replicate 10 8)
    (by decide) (by decide) (by decide) (by decide)

/-- C6: range validation of `hash_10_jet`.  On a well-formed 10-element
list containing a word `≥ TIP5_PRIME` the jet fails with the typed error
raised by its range check, and the result is independent of the
permutation (so the permutation is never invoked and no result tree is
produced); on a list whose words are all `< TIP5_PRIME` the range check
passes and the jet returns its result tree. -/
theorem hash10_range_validation
    (permute permute2 : List Nat → List Nat) (xs : List Nat) (a t : Noun)
    (h10 : xs.length = 10) (hv : ∀ v ∈ xs, v < 2 ^ 64) :
    ((∃ v ∈ xs, TIP5_PRIME ≤ v) →
      hash_10_jet permute (.cell a (.cell (vec_to_hoon_list xs) t))
          = .err .fail
      ∧ hash_10_jet permute (.cell a (.cell (vec_to_hoon_list xs) t))
          = hash_10_jet permute2 (.cell a (.cell (vec_to_hoon_list xs) t)))
    ∧ ((∀ v ∈ xs, v < TIP5_PRIME) →
      hash_10_jet permute (.cell a (.cell (vec_to_hoon_list xs) t))
        = .ok (vec_to_hoon_list (hash10_ref permute xs))) := by
  constructor
  · intro hx
    rw [hash_10_jet_range_err permute xs a t h10 hv hx,
      hash_10_jet_range_err permute2 xs a t h10 hv hx]
    exact ⟨rfl, rfl⟩
  · intro hlt
    exact hash_10_jet_ok permute xs a t h10 hlt

theorem hash10_range_validation_witness :
    (hash_10_jet (fun l => l)
        (.cell (.atom 0)
          (.cell (vec_to_hoon_list (4294967291 :: List.replicate 9 0))
            (.atom 0)))
        = .err .fail
      ∧ hash_10_jet (fun l => l)
          (.cell (.atom 0)
            (.cell (vec_to_hoon_list (4294967291 :: List.replicate 9 0))
              (.atom 0)))
        = hash_10_jet (fun _ => List.replicate 16 1)
          (.cell (.atom 0)
            (.cell (vec_to_hoon_list (4294967291 :: List.replicate 9 0))
              (.atom 0))))
    ∧ hash_10_jet (fun l => l)
        (.cell (.atom 0)
          (.cell (vec_to_hoon_list (List.replicate 10 4)) (.atom 0)))
        = .ok (vec_to_hoon_list
            (hash10_ref (fun l => l) (List.replicate 10 4))) :=
  ⟨(hash10_range_validation (fun l => l) (fun _ => List.replicate 16 1)
      (4294967291 :: List.replicate 9 0) (.atom 0) (.atom 0)
      (by decide) (by decide)).1 (by decide),
    (hash10_range_validation (fun l => l) (fun _ => List.replicate 16 1)
      (List.replicate 10 4) (.atom 0) (.atom 0)
      (by decide) (by decide)).2 (by decide)⟩

/-- C7 counterexample: the claim that failures of different kinds return
different errors is false.  A well-formed 10-element list whose first word
equals `TIP5_PRIME` (a range failure) and a 9-element list (an arity
failure) both make `hash_10_jet` return the one generic error produced by
`jet_err()`: the two returned errors are identical. -/
theorem error_kinds_not_distinguished_cex :
    hash_10_jet (fun l => l)
        (.cell (.atom 0)
          (.cell (vec_to_hoon_list (4294967291 :: List.replicate 9 0))
            (.atom 0)))
      = hash_10_jet (fun l => l)
        (.cell (.atom 0)
          (.cell (vec_to_hoon_list (List.replicate 9 0)) (.atom 0)))
    ∧ hash_10_jet (fun l => l)
        (.cell (.atom 0)
          (.cell (vec_to_hoon_list (4294967291 :: List.replicate 9 0))
            (.atom 0)))
      = .err .fail := by decide

/-- C7 amended: the entry points return typed failures, but out-of-range
words and wrong arity are signalled by the same generic error
(`jet_err()`, embedded as `JetErr.fail`), so errors do not distinguish
those failure kinds. -/
theorem error_kinds_same_generic_error
    (permute : List Nat → List Nat) (xs ys : List Nat) (a t a2 t2 : Noun)
    (h10 : xs.length = 10) (hxv : ∀ v ∈ xs, v < 2 ^ 64)
    (hx : ∃ v ∈ xs, TIP5_PRIME ≤ v)
    (hys : ys.length < 10) (hyv : ∀ v ∈ ys, v < 2 ^ 64) :
    hash_10_jet permute (.cell a (.cell (vec_to_hoon_list xs) t))
        = .err .fail
    ∧ hash_10_jet permute (.cell a2 (.cell (vec_to_hoon_list ys) t2))
        = .err .fail :=
  ⟨hash_10_jet_range_err permute xs a t h10 hxv hx,
    hash_10_jet_arity_err permute ys a2 t2 hys hyv⟩

theorem error_kinds_same_generic_error_witness :
    hash_10_jet (fun l => l)
        (.cell (.atom 1)
          (.cell (vec_to_hoon_list (4294967296 :: List.replicate 9 0))
            (.atom 0)))
        = .err .fail
    ∧ hash_10_jet (fun l => l)
        (.cell (.atom 1)
          (.cell (vec_to_hoon_list (List.replicate 3 5)) (.atom 0)))
        = .err .fail :=
  error_kinds_same_generic_error (fun l => l)
    (4294967296 :: List.replicate 9 0) (List.replicate 3 5)
    (.atom 1) (.atom 0) (.atom 1) (.atom 0)
    (by decide) (by decide) (by decide) (by decide) (by decide)

/-- C8: output range invariant.  For every valid input (10 words each
`< TIP5_PRIME`) and every 16-word permutation, `hash_10_jet` returns a
5-word digest each of whose words is strictly below `TIP5_PRIME`. -/
theorem hash10_output_in_field
    (permute : List Nat → List Nat) (xs : List Nat) (a t : Noun)
    (h10 : xs.length = 10) (hv : ∀ v ∈ xs, v < TIP5_PRIME)
    (hp : (permute (updateRate (xs.map montify)
        init_tip5_state_fixed)).length = 16) :
    hash_10_jet permute (.cell a (.cell (vec_to_hoon_list xs) t))
        = .ok (vec_to_hoon_list (hash10_ref permute xs))
    ∧ (hash10_ref permute xs).length = 5
    ∧ ∀ w ∈ hash10_ref permute xs, w < TIP5_PRIME := by
  refine ⟨hash_10_jet_ok permute xs a t h10 hv, ?_,
    hash10_ref_mem_lt permute xs⟩
  simp only [hash10_ref, List.length_map, List.length_take, hp,
    DIGEST_LENGTH]
  decide

theorem hash10_output_in_field_witness :
    hash_10_jet (fun l => l)
        (.cell (.atom 0)
          (.cell (vec_to_hoon_list (List.replicate 10 6)) (.atom 0)))
        = .ok (vec_to_hoon_list (hash10_ref (fun l => l)
            (List.replicate 10 6)))
    ∧ (hash10_ref (fun l => l) (List.replicate 10 6)).length = 5
    ∧ ∀ w ∈ hash10_ref (fun l => l) (List.replicate 10 6),
        w < TIP5_PRIME :=
  hash10_output_in_field (fun l => l) (List.replicate 10 6)
    (.atom 0) (.atom 0) (by decide) (by decide) (by decide)

/-- C9: `permutation_jet` performs no field-range validation: every
well-formed 16-element list of arbitrary words below `2^64`, including
words at or above `TIP5_PRIME`, decodes and succeeds for an arbitrary
permutation, whereas `hash_10_jet` rejects a 10-element list containing
such a word with an error. -/
theorem permutation_jet_no_range_validation
    (permute : List Nat → List Nat) (xs : List Nat) (a t : Noun)
    (h16 : xs.length = 16) (hv : ∀ v ∈ xs, v < 2 ^ 64) :
    permutation_jet permute (.cell a (.cell (vec_to_hoon_list xs) t))
        = .ok (vec_to_hoon_list (permute xs))
    ∧ ∀ (zs : List Nat) (a2 t2 : Noun), zs.length = 10 →
        (∀ v ∈ zs, v < 2 ^ 64) → (∃ v ∈ zs, TIP5_PRIME ≤ v) →
        hash_10_jet permute (.cell a2 (.cell (vec_to_hoon_list zs) t2))
          = .err .fail :=
  ⟨permutation_jet_ok permute xs a t h16 hv,
    fun zs a2 t2 h10 hv2 hx =>
      hash_10_jet_range_err permute zs a2 t2 h10 hv2 hx⟩

theorem permutation_jet_no_range_validation_witness :
    permutation_jet (fun l => l)
        (.cell (.atom 0)
          (.cell (vec_to_hoon_list (List.replicate 16 18446744073709551615))
            (.atom 0)))
        = .ok (vec_to_hoon_list (List.replicate 16 18446744073709551615))
    ∧ hash_10_jet (fun l => l)
        (.cell (.atom 0)
          (.cell (vec_to_hoon_list (List.replicate 10 18446744073709551615))
            (.atom 0)))
        = .err .fail :=
  ⟨(permutation_jet_no_range_validation (fun l => l)
      (List.replicate 16 18446744073709551615) (.atom 0) (.atom 0)
      (by decide) (by decide)).1,
    (permutation_jet_no_range_validation (fun l => l)
      (List.replicate 16 18446744073709551615) (.atom 0) (.atom 0)
      (by decide) (by decide)).2
      (List.replicate 10 18446744073709551615) (.atom 0) (.atom 0)
      (by decide) (by decide) (by decide)⟩

/-- C10: terminator handling.  `hoon_list_to_sponge` accepts a 16-element
chain terminated by any atom (it never inspects the terminator), while
`hoon_list_to_hash10_input` rejects a 10-element chain whose terminating
atom is a nonzero `u64`. -/
theorem terminator_atom_handling (xs ys : List Nat) (a b : Nat)
    (h16 : xs.length = 16) (hxv : ∀ v ∈ xs, v < 2 ^ 64)
    (h10 : ys.length = 10) (hyv : ∀ v ∈ ys, v < 2 ^ 64)
    (hb0 : b ≠ 0) (hb64 : b < 2 ^ 64) :
    hoon_list_to_sponge (chain xs (.atom a)) = .ok xs
    ∧ hoon_list_to_hash10_input (chain ys (.atom b)) = .err .fail := by
  refine ⟨hoon_list_to_sponge_chain xs a h16 hxv, ?_⟩
  rw [hoon_list_to_hash10_chain ys b h10 hyv]
  have hb : b < 18446744073709551616 := by simpa using hb64
  simp [hb0, hb]

theorem terminator_atom_handling_witness :
    hoon_list_to_sponge (chain (List.replicate 16 2) (.atom 77))
        = .ok (List.replicate 16 2)
    ∧ hoon_list_to_hash10_input (chain (List.replicate 10 2) (.atom 77))
        = .err .fail :=
  terminator_atom_handling (List.replicate 16 2) (List.replicate 10 2)
    77 77 (by decide) (by decide) (by decide) (by decide)
    (by decide) (by decide)

end Tip5
